import Mathlib

/-!
Verification of the composite (sparse + dense) master index layer
`masterIndex006.c` of the UDS deduplication index.  The C file is embedded
shallowly: pure routing arithmetic becomes Lean functions; calls into the two
abstract sub-indices (masterIndex005), the buffered reader/writer and the
zone mutexes are modelled by explicit environments and by event traces, so
that locking order and delegation order become provable data.
-/

/-- Status code for success.  The numeric value 0 is fixed by the UDS API
(`UDS_SUCCESS`). -/
def UDS_SUCCESS : Int := 0

/-- Modelled from the spec: `UDS_BAD_STATE` ("wrong state" programming error)
is defined in errors.h, which is not under src/; only its distinctness from
`UDS_SUCCESS` and from the other codes is used here. -/
def UDS_BAD_STATE : Int := 1025

/-- Modelled from the spec: `UDS_CORRUPT_COMPONENT` (corrupt persisted state)
is defined in errors.h, which is not under src/; only its distinctness from
`UDS_SUCCESS` and from the other codes is used here. -/
def UDS_CORRUPT_COMPONENT : Int := 1030

/-- Modelled from the spec: `UDS_INVALID_ARGUMENT` (invalid configuration)
is defined in errors.h, which is not under src/; only its distinctness from
`UDS_SUCCESS` and from the other codes is used here. -/
def UDS_INVALID_ARGUMENT : Int := 1035

/-- Modelled from the spec: a short-read error code from the buffer layer
(buffer.h is not under src/); only its distinctness from `UDS_SUCCESS` is
used here. -/
def UDS_BUFFER_ERROR : Int := 1040

/-- Chunk name: a fixed-size content fingerprint, an opaque byte sequence. -/
structure uds_chunk_name where
  name : List Nat
  deriving DecidableEq, Repr

/-- Modelled from the spec: `extract_sampling_bytes` lives in hashUtils.h,
which is not under src/.  The spec says it extracts a fixed subset of the
name's bytes (a hash/sampling projection); it is modelled as the
little-endian value of a fixed 4-byte window at the start of the name. -/
def extract_sampling_bytes (n : uds_chunk_name) : Nat :=
  match n.name with
  | b0 :: b1 :: b2 :: b3 :: _ => b0 + 256 * b1 + 65536 * b2 + 16777216 * b3
  | _ => 0

/-- Composite master index state (struct master_index6): the sparse sample
rate and the zone count; the two sub-index instances and the mutex array are
modelled separately (environments and event traces). -/
structure master_index6 where
  sparseSampleRate : Nat
  numZones : Nat
  deriving DecidableEq, Repr

/-- Identifies one of the two sub-indices owned by the composite:
`hook` is the sparse (sampled) index, `nonHook` the dense index. -/
inductive SubId where
  | hook
  | nonHook
  deriving DecidableEq, Repr

/-- isMasterIndexSample_006: a chunk name is a sample (hook) iff its
sampling projection modulo the sparse sample rate is zero. -/
def isMasterIndexSample_006 (mi6 : master_index6) (name : uds_chunk_name) : Bool :=
  extract_sampling_bytes name % mi6.sparseSampleRate == 0

/-- getSubIndex: route a chunk name to the hook or the non-hook sub-index. -/
def getSubIndex (mi6 : master_index6) (name : uds_chunk_name) : SubId :=
  if isMasterIndexSample_006 mi6 name then SubId.hook else SubId.nonHook

/-- Geometry fields used by this layer (struct geometry). -/
structure geometry where
  records_per_chapter : Nat
  chapters_per_volume : Nat
  sparse_chapters_per_volume : Nat
  deriving DecidableEq, Repr

/-- Configuration fields used by this layer (struct configuration); the
geometry pointer is embedded by value. -/
structure configuration where
  geometry : geometry
  sparse_sample_rate : Nat
  deriving DecidableEq, Repr

/-- Result of splitting the global configuration (struct split_config). -/
structure split_config where
  hookConfig : configuration
  nonHookConfig : configuration
  deriving DecidableEq, Repr

/-- splitConfiguration006: derive the hook and non-hook sub-configurations
from the global configuration.  The C function reads through its `config`
pointer and writes only through its `split` out-parameter; the returned pair
carries the post-call value of `*config` first, so that non-mutation of the
input is a provable statement. -/
def splitConfiguration006 (config : configuration) :
    Except Int (configuration × split_config) :=
  if config.geometry.sparse_chapters_per_volume = 0 then
    Except.error UDS_INVALID_ARGUMENT
  else if config.sparse_sample_rate = 0 then
    Except.error UDS_INVALID_ARGUMENT
  else
    let sampleRate := config.sparse_sample_rate
    let numChapters := config.geometry.chapters_per_volume
    let numSparseChapters := config.geometry.sparse_chapters_per_volume
    let numDenseChapters := numChapters - numSparseChapters
    let sampleRecords := config.geometry.records_per_chapter / sampleRate
    Except.ok (config,
      { hookConfig :=
          { config with geometry :=
              { config.geometry with
                  records_per_chapter := sampleRecords,
                  sparse_chapters_per_volume := 0 } },
        nonHookConfig :=
          { config with geometry :=
              { config.geometry with
                  records_per_chapter :=
                    config.geometry.records_per_chapter - sampleRecords,
                  sparse_chapters_per_volume := 0,
                  chapters_per_volume := numDenseChapters } } })

/-- Magic bytes of the saved master index header: the ASCII bytes of the
8-character literal MI6-0001 (MAGIC_MI_START). -/
def MAGIC_MI_START : List Nat := [77, 73, 54, 45, 48, 48, 48, 49]

/-- Size in bytes of the magic tag (MAGIC_SIZE). -/
def MAGIC_SIZE : Nat := 8

/-- Size in bytes of struct mi006_data: an 8-byte magic plus a 4-byte
unsigned sample rate, 12 bytes total. -/
def mi006_data_size : Nat := 12

/-- Decoded saved header (struct mi006_data). -/
structure mi006_data where
  magic : List Nat
  sparseSampleRate : Nat
  deriving DecidableEq, Repr

/-- Little-endian 4-byte encoding of a 32-bit value, as written by
put_uint32_le_into_buffer. -/
def le32bytes (r : Nat) : List Nat :=
  [r % 256, r / 256 % 256, r / 65536 % 256, r / 16777216 % 256]

/-- Little-endian decoding of a 4-byte list, as read by
get_uint32_le_from_buffer. -/
def le32val (l : List Nat) : Nat :=
  match l with
  | [b0, b1, b2, b3] => b0 + 256 * b1 + 65536 * b2 + 16777216 * b3
  | _ => 0

/-- encodeMasterIndexHeader: the byte stream of the fixed header, the magic
followed by the sample rate in 4-byte little-endian form. -/
def encodeMasterIndexHeader (sparseSampleRate : Nat) : List Nat :=
  MAGIC_MI_START ++ le32bytes sparseSampleRate

/-- decodeMasterIndexHeader: read the 8 magic bytes then the 4-byte
little-endian rate; the trailing ASSERT that the buffer is fully consumed
turns any leftover bytes into UDS_CORRUPT_COMPONENT, and a short buffer
fails in the get calls with a buffer error. -/
def decodeMasterIndexHeader (buf : List Nat) : Except Int mi006_data :=
  if buf.length < MAGIC_SIZE then Except.error UDS_BUFFER_ERROR
  else if buf.length - MAGIC_SIZE < 4 then Except.error UDS_BUFFER_ERROR
  else if buf.length ≠ mi006_data_size then Except.error UDS_CORRUPT_COMPONENT
  else Except.ok
    { magic := buf.take MAGIC_SIZE,
      sparseSampleRate := le32val ((buf.drop MAGIC_SIZE).take 4) }

/-- Triage result (struct master_index_triage): the fields written by this
layer and by the sparse sub-index's sampled lookup. -/
structure master_index_triage where
  virtualChapter : Nat
  zone : Nat
  isSample : Bool
  inSampledChapter : Bool
  deriving DecidableEq, Repr

/-- Payload of a record lookup as filled in by a sub-index's
getMasterIndexRecord (found flag, collision flag, chapter). -/
structure record_payload where
  isFound : Bool
  isCollision : Bool
  virtualChapter : Nat
  deriving DecidableEq, Repr

/-- Record handle (struct master_index_record): the sub-index payload plus
the zone mutex reference this layer stores on the sample path (`none`
models a record with no stored mutex). -/
structure master_index_record where
  payload : record_payload
  mutex : Option Nat
  deriving DecidableEq, Repr

/-- Observable actions of the composite layer: acquiring and releasing a
zone's hook mutex, and the calls delegated to the two sub-indices. -/
inductive MIEvent where
  | lock (zone : Nat)
  | unlock (zone : Nat)
  | subGetRecord (s : SubId)
  | subLookupSampled (s : SubId)
  | subRestore (s : SubId)
  | subFinishSave (s : SubId)
  | subAbortSave (s : SubId)
  deriving DecidableEq, Repr

/-- Mutexes held after a trace: a lock pushes its zone, an unlock removes
one occurrence of its zone; the list is empty iff nothing is left held. -/
def heldAfter (tr : List MIEvent) : List Nat :=
  tr.foldl
    (fun held e =>
      match e with
      | MIEvent.lock z => z :: held
      | MIEvent.unlock z => held.erase z
      | _ => held)
    []

/-- Behaviour of the two owned sub-index instances (miHook and miNonHook)
and of the buffered writer, as seen through the abstract sub-index
interface.  Each field models one delegated operation's outcome. -/
structure sub_index_pair where
  zoneOf : SubId → uds_chunk_name → Nat
  getRecord : SubId → uds_chunk_name → Int × record_payload
  lookupSampled : uds_chunk_name → master_index_triage → Int × master_index_triage
  headerWrite : Int
  saveImage : SubId → Nat → Except Int (List Nat)
  savingDone : SubId → Nat → Bool
  finishSave : SubId → Nat → Int
  abortSave : SubId → Nat → Int
  restore : SubId → Int

/-- getMasterIndexZone_006: the zone of a name, asked of whichever
sub-index the name routes to; no locking. -/
def getMasterIndexZone_006 (env : sub_index_pair) (mi6 : master_index6)
    (name : uds_chunk_name) : Nat :=
  env.zoneOf (getSubIndex mi6 name) name

/-- lookupMasterIndexName_006: fill in isSample, inSampledChapter := false
and the zone; when the name is a sample, query the hook sub-index under the
zone's mutex.  Returns the result code, the triage as left in the caller's
struct, and the event trace. -/
def lookupMasterIndexName_006 (env : sub_index_pair) (mi6 : master_index6)
    (name : uds_chunk_name) (triage : master_index_triage) :
    Int × master_index_triage × List MIEvent :=
  let t0 : master_index_triage :=
    { triage with
        isSample := isMasterIndexSample_006 mi6 name,
        inSampledChapter := false,
        zone := getMasterIndexZone_006 env mi6 name }
  if t0.isSample then
    let r := env.lookupSampled name t0
    (r.1, r.2,
      [MIEvent.lock t0.zone, MIEvent.subLookupSampled SubId.hook,
       MIEvent.unlock t0.zone])
  else
    (UDS_SUCCESS, t0, [])

/-- lookupMasterIndexSampledName_006: unsupported on the composite; the
ASSERT_WITH_ERROR_CODE(false, UDS_BAD_STATE, ...) body touches none of its
arguments and returns the bad-state code. -/
def lookupMasterIndexSampledName_006 (mi6 : master_index6)
    (name : uds_chunk_name) (triage : master_index_triage) :
    Int × master_index6 × master_index_triage :=
  (UDS_BAD_STATE, mi6, triage)

/-- getMasterIndexRecord_006: sampled names go to the hook sub-index under
the owning zone's mutex, and the mutex reference is stored in the record;
other names go straight to the non-hook sub-index.  Returns the result
code, the record as left in the caller's struct, and the event trace. -/
def getMasterIndexRecord_006 (env : sub_index_pair) (mi6 : master_index6)
    (name : uds_chunk_name) : Int × master_index_record × List MIEvent :=
  if isMasterIndexSample_006 mi6 name then
    let zone := env.zoneOf SubId.hook name
    let r := env.getRecord SubId.hook name
    (r.1, { payload := r.2, mutex := some zone },
      [MIEvent.lock zone, MIEvent.subGetRecord SubId.hook, MIEvent.unlock zone])
  else
    let r := env.getRecord SubId.nonHook name
    (r.1, { payload := r.2, mutex := none },
      [MIEvent.subGetRecord SubId.nonHook])

/-- startSavingMasterIndex_006: write the encoded header, then the dense
(non-hook) sub-index's saved image, then the sparse (hook) one, to the same
stream.  Returns the result code and the bytes written to the stream. -/
def startSavingMasterIndex_006 (env : sub_index_pair) (mi6 : master_index6)
    (zoneNumber : Nat) : Int × List Nat :=
  let header := encodeMasterIndexHeader mi6.sparseSampleRate
  if env.headerWrite ≠ UDS_SUCCESS then
    (env.headerWrite, [])
  else
    match env.saveImage SubId.nonHook zoneNumber with
    | Except.error e => (e, header)
    | Except.ok dense =>
      match env.saveImage SubId.hook zoneNumber with
      | Except.error e => (e, header ++ dense)
      | Except.ok sparse => (UDS_SUCCESS, header ++ dense ++ sparse)

/-- isSavingMasterIndexDone_006: both sub-indices must report done. -/
def isSavingMasterIndexDone_006 (env : sub_index_pair) (zoneNumber : Nat) : Bool :=
  env.savingDone SubId.nonHook zoneNumber && env.savingDone SubId.hook zoneNumber

/-- finishSavingMasterIndex_006: finish the dense sub-index; only if it
succeeded, finish the sparse one and return its result. -/
def finishSavingMasterIndex_006 (env : sub_index_pair) (zoneNumber : Nat) :
    Int × List MIEvent :=
  let result := env.finishSave SubId.nonHook zoneNumber
  if result = UDS_SUCCESS then
    (env.finishSave SubId.hook zoneNumber,
     [MIEvent.subFinishSave SubId.nonHook, MIEvent.subFinishSave SubId.hook])
  else
    (result, [MIEvent.subFinishSave SubId.nonHook])

/-- abortSavingMasterIndex_006: abort both sub-indices unconditionally; a
dense failure takes priority, otherwise the sparse result is returned. -/
def abortSavingMasterIndex_006 (env : sub_index_pair) (zoneNumber : Nat) :
    Int × List MIEvent :=
  let result := env.abortSave SubId.nonHook zoneNumber
  let result2 := env.abortSave SubId.hook zoneNumber
  ((if result = UDS_SUCCESS then result2 else result),
   [MIEvent.subAbortSave SubId.nonHook, MIEvent.subAbortSave SubId.hook])

/-- Header-validation loop of startRestoringMasterIndex_006: each source
yields either a read error or the 12 header bytes; the decoded magic must
match exactly; the first source's rate is stored into the composite, every
later source's rate must equal it. -/
def restoreHeaders (mi6 : master_index6) (isFirst : Bool)
    (sources : List (Except Int (List Nat))) : Int × master_index6 :=
  match sources with
  | [] => (UDS_SUCCESS, mi6)
  | s :: rest =>
    match s with
    | Except.error e => (e, mi6)
    | Except.ok buf =>
      match decodeMasterIndexHeader buf with
      | Except.error e => (e, mi6)
      | Except.ok header =>
        if header.magic ≠ MAGIC_MI_START then (UDS_CORRUPT_COMPONENT, mi6)
        else if isFirst then
          restoreHeaders { mi6 with sparseSampleRate := header.sparseSampleRate }
            false rest
        else if mi6.sparseSampleRate ≠ header.sparseSampleRate then
          (UDS_CORRUPT_COMPONENT, mi6)
        else restoreHeaders mi6 false rest

/-- startRestoringMasterIndex_006: validate every source's header (adopting
the first rate, requiring the rest to agree), and only then delegate to the
dense sub-index's multi-reader restore followed by the sparse one's.
Returns the result code, the composite state and the event trace. -/
def startRestoringMasterIndex_006 (env : sub_index_pair) (mi6 : master_index6)
    (sources : List (Except Int (List Nat))) :
    Int × master_index6 × List MIEvent :=
  let checked := restoreHeaders mi6 true sources
  if checked.1 ≠ UDS_SUCCESS then (checked.1, checked.2, [])
  else if env.restore SubId.nonHook ≠ UDS_SUCCESS then
    (env.restore SubId.nonHook, checked.2, [MIEvent.subRestore SubId.nonHook])
  else
    (env.restore SubId.hook, checked.2,
     [MIEvent.subRestore SubId.nonHook, MIEvent.subRestore SubId.hook])

/-- computeMasterIndexSaveBytes006: split the configuration, compute each
sub-index's own save size (compute_master_index_save_bytes005, modelled by
the `compute005` argument), and add the fixed header size. -/
def computeMasterIndexSaveBytes006 (compute005 : configuration → Except Int Nat)
    (config : configuration) : Except Int Nat :=
  match splitConfiguration006 config with
  | Except.error e => Except.error e
  | Except.ok split =>
    match compute005 split.2.hookConfig with
    | Except.error e => Except.error e
    | Except.ok hookBytes =>
      match compute005 split.2.nonHookConfig with
      | Except.error e => Except.error e
      | Except.ok nonHookBytes =>
        Except.ok (mi006_data_size + hookBytes + nonHookBytes)

/-- Outcomes of the allocation, mutex-initialization and sub-index
construction steps of makeMasterIndex006, which live outside this file's
source (memoryAlloc, threads, masterIndex005). -/
structure make_env where
  allocIndex : Except Int Unit
  allocZones : Except Int Unit
  initMutex : Nat → Except Int Unit
  make005 : configuration → Except Int Unit

/-- Mutex-initialization loop of makeMasterIndex006: starting from the zone
allocation's result, every zone's initMutex runs only while no failure has
been seen, and the first failure is kept. -/
def initZoneMutexes (env : make_env) : Nat → Except Int Unit
  | 0 => env.allocZones
  | n + 1 =>
    match initZoneMutexes env n with
    | Except.error e => Except.error e
    | Except.ok _ => env.initMutex n

/-- makeMasterIndex006: split the configuration first; then allocate,
initialize the zone mutexes, build the non-hook sub-index from the non-hook
config and the hook sub-index from the hook config; any failure tears the
partial composite down and propagates. -/
def makeMasterIndex006 (env : make_env) (config : configuration)
    (numZones : Nat) : Except Int master_index6 :=
  match splitConfiguration006 config with
  | Except.error e => Except.error e
  | Except.ok split =>
    match env.allocIndex with
    | Except.error e => Except.error e
    | Except.ok _ =>
      match initZoneMutexes env numZones with
      | Except.error e => Except.error e
      | Except.ok _ =>
        match env.make005 split.2.nonHookConfig with
        | Except.error e => Except.error e
        | Except.ok _ =>
          match env.make005 split.2.hookConfig with
          | Except.error e => Except.error e
          | Except.ok _ =>
            Except.ok { sparseSampleRate := config.sparse_sample_rate,
                        numZones := numZones }

/-- Concrete sub-index environment used by the witness theorems: every
delegated operation succeeds, zone 0 owns every name, and the two saved
images are the byte lists [1, 2] and [3]. -/
def env0 : sub_index_pair :=
  { zoneOf := fun _ _ => 0,
    getRecord := fun _ _ =>
      (UDS_SUCCESS, { isFound := false, isCollision := false, virtualChapter := 0 }),
    lookupSampled := fun _ t => (UDS_SUCCESS, { t with inSampledChapter := true }),
    headerWrite := UDS_SUCCESS,
    saveImage := fun s _ =>
      Except.ok (match s with | SubId.nonHook => [1, 2] | SubId.hook => [3]),
    savingDone := fun _ _ => true,
    finishSave := fun _ _ => UDS_SUCCESS,
    abortSave := fun _ _ => UDS_SUCCESS,
    restore := fun _ => UDS_SUCCESS }

/-- Concrete composite with sample rate 1: every name is a sample. -/
def mi0 : master_index6 := { sparseSampleRate := 1, numZones := 1 }

/-- Concrete composite with sample rate 2. -/
def mi2 : master_index6 := { sparseSampleRate := 2, numZones := 1 }

/-- Concrete name whose sampling projection is 0: a sample at every rate. -/
def name0 : uds_chunk_name := { name := [0, 0, 0, 0] }

/-- Concrete name whose sampling projection is 1: not a sample at rate 2. -/
def name1 : uds_chunk_name := { name := [1, 0, 0, 0] }

/-- Concrete incoming triage value for the witness theorems. -/
def triage0 : master_index_triage :=
  { virtualChapter := 0, zone := 5, isSample := false, inSampledChapter := true }

/-- Concrete configuration with the record and chapter counts named by the
spec's worked example. -/
def cfgA : configuration :=
  { geometry := { records_per_chapter := 100, chapters_per_volume := 1000,
                  sparse_chapters_per_volume := 100 },
    sparse_sample_rate := 10 }

/-- cfgA with a zero sparse sample rate. -/
def cfgZeroRate : configuration := { cfgA with sparse_sample_rate := 0 }

/-- cfgA with zero sparse chapters. -/
def cfgZeroSparse : configuration :=
  { cfgA with geometry := { cfgA.geometry with sparse_chapters_per_volume := 0 } }

/-- Concrete construction environment in which every external step of
makeMasterIndex006 succeeds. -/
def mkEnv0 : make_env :=
  { allocIndex := Except.ok (),
    allocZones := Except.ok (),
    initMutex := fun _ => Except.ok (),
    make005 := fun _ => Except.ok () }

/-- Concrete sub-index save-size oracle reporting 20 bytes for every
configuration. -/
def compute005c : configuration → Except Int Nat := fun _ => Except.ok 20

/-- C9: for every valid sample rate r > 0, isMasterIndexSample_006 is true
exactly when the sampling projection of the name modulo r is zero, and it is
a pure function of the name's bytes and the rate: two names with the same
bytes always classify the same way. -/
theorem isMasterIndexSample_006_spec (mi6 : master_index6)
    (na nb : uds_chunk_name) (h : 0 < mi6.sparseSampleRate) :
    (isMasterIndexSample_006 mi6 na = true
      ↔ extract_sampling_bytes na % mi6.sparseSampleRate = 0)
    ∧ (na.name = nb.name →
        isMasterIndexSample_006 mi6 na = isMasterIndexSample_006 mi6 nb) := by
  constructor
  · simp [isMasterIndexSample_006]
  · intro hnames
    have hab : na = nb := by cases na; cases nb; simpa using hnames
    rw [hab]

/-- Witness for C9 at rate 2 and the all-zero name. -/
theorem isMasterIndexSample_006_spec_witness :
    0 < mi2.sparseSampleRate
    ∧ (isMasterIndexSample_006 mi2 name0 = true
        ↔ extract_sampling_bytes name0 % mi2.sparseSampleRate = 0) :=
  ⟨by decide, (isMasterIndexSample_006_spec mi2 name0 name0 (by decide)).1⟩

/-- C10: the composite's sampled-name entry point always fails with the
bad-state code, which is not success, and changes neither the composite nor
the caller's triage. -/
theorem lookupMasterIndexSampledName_006_spec (mi6 : master_index6)
    (name : uds_chunk_name) (t : master_index_triage) :
    (lookupMasterIndexSampledName_006 mi6 name t).1 = UDS_BAD_STATE
    ∧ (lookupMasterIndexSampledName_006 mi6 name t).2.1 = mi6
    ∧ (lookupMasterIndexSampledName_006 mi6 name t).2.2 = t
    ∧ UDS_BAD_STATE ≠ UDS_SUCCESS :=
  ⟨rfl, rfl, rfl, by decide⟩

/-- C3: with a nonzero rate and nonzero sparse chapter count the split
succeeds, leaves the input configuration unchanged, and the two
sub-geometries satisfy the stated arithmetic with zero sparse chapters. -/
theorem splitConfiguration006_spec (config : configuration)
    (h1 : config.sparse_sample_rate ≠ 0)
    (h2 : config.geometry.sparse_chapters_per_volume ≠ 0) :
    ∃ out s, splitConfiguration006 config = Except.ok (out, s)
      ∧ out = config
      ∧ s.hookConfig.geometry.records_per_chapter
          = config.geometry.records_per_chapter / config.sparse_sample_rate
      ∧ s.nonHookConfig.geometry.records_per_chapter
          = config.geometry.records_per_chapter
            - s.hookConfig.geometry.records_per_chapter
      ∧ s.nonHookConfig.geometry.chapters_per_volume
          = config.geometry.chapters_per_volume
            - config.geometry.sparse_chapters_per_volume
      ∧ s.hookConfig.geometry.sparse_chapters_per_volume = 0
      ∧ s.nonHookConfig.geometry.sparse_chapters_per_volume = 0 := by
  unfold splitConfiguration006
  rw [if_neg h2, if_neg h1]
  exact ⟨config, _, rfl, rfl, rfl, rfl, rfl, rfl, rfl⟩

/-- Witness for C3 at the spec's worked example: 100 records at rate 10
give 10 hook and 90 non-hook records, 1000 chapters with 100 sparse give
900 non-hook chapters, and both sub-geometries report 0 sparse chapters. -/
theorem splitConfiguration006_spec_witness :
    ∃ out s, splitConfiguration006 cfgA = Except.ok (out, s)
      ∧ out = cfgA
      ∧ s.hookConfig.geometry.records_per_chapter = 10
      ∧ s.nonHookConfig.geometry.records_per_chapter = 90
      ∧ s.nonHookConfig.geometry.chapters_per_volume = 900
      ∧ s.hookConfig.geometry.sparse_chapters_per_volume = 0
      ∧ s.nonHookConfig.geometry.sparse_chapters_per_volume = 0 := by
  obtain ⟨out, s, he, ho, hr1, hr2, hc, hs1, hs2⟩ :=
    splitConfiguration006_spec cfgA (by decide) (by decide)
  refine ⟨out, s, he, ho, ?_, ?_, ?_, hs1, hs2⟩
  · simpa [cfgA] using hr1
  · rw [hr1] at hr2
    simpa [cfgA] using hr2
  · simpa [cfgA] using hc

/-- C8: a zero sample rate or a zero sparse chapter count makes the split,
the composite construction and the save-size computation all fail with the
invalid-argument code (which is not success), so no composite state is
produced. -/
theorem splitConfiguration006_rejects (config : configuration)
    (env : make_env) (compute005 : configuration → Except Int Nat)
    (numZones : Nat)
    (h : config.sparse_sample_rate = 0
        ∨ config.geometry.sparse_chapters_per_volume = 0) :
    splitConfiguration006 config = Except.error UDS_INVALID_ARGUMENT
    ∧ makeMasterIndex006 env config numZones
        = Except.error UDS_INVALID_ARGUMENT
    ∧ computeMasterIndexSaveBytes006 compute005 config
        = Except.error UDS_INVALID_ARGUMENT
    ∧ UDS_INVALID_ARGUMENT ≠ UDS_SUCCESS := by
  have hs : splitConfiguration006 config = Except.error UDS_INVALID_ARGUMENT := by
    unfold splitConfiguration006
    rcases h with h | h
    · by_cases hc : config.geometry.sparse_chapters_per_volume = 0 <;>
        simp [hc, h]
    · simp [h]
  refine ⟨hs, ?_, ?_, by decide⟩
  · unfold makeMasterIndex006
    rw [hs]
  · unfold computeMasterIndexSaveBytes006
    rw [hs]

/-- Witness for C8 at the two concrete degenerate configurations. -/
theorem splitConfiguration006_rejects_witness :
    (cfgZeroRate.sparse_sample_rate = 0
      ∨ cfgZeroRate.geometry.sparse_chapters_per_volume = 0)
    ∧ makeMasterIndex006 mkEnv0 cfgZeroRate 1
        = Except.error UDS_INVALID_ARGUMENT
    ∧ computeMasterIndexSaveBytes006 compute005c cfgZeroSparse
        = Except.error UDS_INVALID_ARGUMENT :=
  ⟨Or.inl rfl,
   (splitConfiguration006_rejects cfgZeroRate mkEnv0 compute005c 1
     (Or.inl rfl)).2.1,
   (splitConfiguration006_rejects cfgZeroSparse mkEnv0 compute005c 1
     (Or.inr rfl)).2.2.1⟩

/-- C1 counterexample: at sample rate 1, the all-zero name is a sample, the
returned record does store the zone 0 mutex reference, but no mutex is held
when getMasterIndexRecord_006 returns (the trace's lock is matched by its
unlock), refuting the claim that the mutex is still held at call return. -/
theorem getMasterIndexRecord_006_counterexample :
    isMasterIndexSample_006 mi0 name0 = true
    ∧ (getMasterIndexRecord_006 env0 mi0 name0).2.1.mutex = some 0
    ∧ heldAfter (getMasterIndexRecord_006 env0 mi0 name0).2.2 = [] := by
  decide

/-- C1 amended: for a sample the call locks the owning zone's mutex, queries
the hook sub-index, unlocks, and stores the mutex reference in the record
(nothing is left held at return); for a non-sample it delegates to the
non-hook sub-index with no locking and no stored mutex. -/
theorem getMasterIndexRecord_006_routing (env : sub_index_pair)
    (mi6 : master_index6) (name : uds_chunk_name) :
    (isMasterIndexSample_006 mi6 name = true →
      (getMasterIndexRecord_006 env mi6 name).2.2
          = [MIEvent.lock (env.zoneOf SubId.hook name),
             MIEvent.subGetRecord SubId.hook,
             MIEvent.unlock (env.zoneOf SubId.hook name)]
      ∧ (getMasterIndexRecord_006 env mi6 name).2.1.mutex
          = some (env.zoneOf SubId.hook name)
      ∧ heldAfter (getMasterIndexRecord_006 env mi6 name).2.2 = []
      ∧ (getMasterIndexRecord_006 env mi6 name).1
          = (env.getRecord SubId.hook name).1)
    ∧ (isMasterIndexSample_006 mi6 name = false →
      (getMasterIndexRecord_006 env mi6 name).2.2
          = [MIEvent.subGetRecord SubId.nonHook]
      ∧ (getMasterIndexRecord_006 env mi6 name).2.1.mutex = none
      ∧ (getMasterIndexRecord_006 env mi6 name).1
          = (env.getRecord SubId.nonHook name).1) := by
  constructor
  · intro h
    refine ⟨?_, ?_, ?_, ?_⟩ <;> simp [getMasterIndexRecord_006, h, heldAfter]
  · intro h
    refine ⟨?_, ?_, ?_⟩ <;> simp [getMasterIndexRecord_006, h]

/-- Witness for the amended C1 at both a sample and a non-sample name. -/
theorem getMasterIndexRecord_006_routing_witness :
    ((getMasterIndexRecord_006 env0 mi2 name0).2.1.mutex
        = some (env0.zoneOf SubId.hook name0)
      ∧ heldAfter (getMasterIndexRecord_006 env0 mi2 name0).2.2 = [])
    ∧ ((getMasterIndexRecord_006 env0 mi2 name1).2.2
        = [MIEvent.subGetRecord SubId.nonHook]
      ∧ (getMasterIndexRecord_006 env0 mi2 name1).2.1.mutex = none) :=
  ⟨⟨((getMasterIndexRecord_006_routing env0 mi2 name0).1 rfl).2.1,
    ((getMasterIndexRecord_006_routing env0 mi2 name0).1 rfl).2.2.1⟩,
   ⟨((getMasterIndexRecord_006_routing env0 mi2 name1).2 rfl).1,
    ((getMasterIndexRecord_006_routing env0 mi2 name1).2 rfl).2.1⟩⟩

/-- C5: the triage lookup computes isSample and the zone with no lock taken,
sets inSampledChapter to false, and locks the zone's mutex, queries the hook
sub-index (on a triage whose inSampledChapter is false) and unlocks, exactly
when the name is a sample; a non-sample returns success with an empty trace,
consulting neither sub-index's lookup. -/
theorem lookupMasterIndexName_006_spec (env : sub_index_pair)
    (mi6 : master_index6) (name : uds_chunk_name) (t : master_index_triage) :
    (isMasterIndexSample_006 mi6 name = false →
      lookupMasterIndexName_006 env mi6 name t
        = (UDS_SUCCESS,
           { t with isSample := false, inSampledChapter := false,
                    zone := env.zoneOf SubId.nonHook name },
           []))
    ∧ (isMasterIndexSample_006 mi6 name = true →
      lookupMasterIndexName_006 env mi6 name t
        = ((env.lookupSampled name
              { t with isSample := true, inSampledChapter := false,
                       zone := env.zoneOf SubId.hook name }).1,
           (env.lookupSampled name
              { t with isSample := true, inSampledChapter := false,
                       zone := env.zoneOf SubId.hook name }).2,
           [MIEvent.lock (env.zoneOf SubId.hook name),
            MIEvent.subLookupSampled SubId.hook,
            MIEvent.unlock (env.zoneOf SubId.hook name)])
      ∧ heldAfter (lookupMasterIndexName_006 env mi6 name t).2.2 = []) := by
  constructor
  · intro h
    simp [lookupMasterIndexName_006, getMasterIndexZone_006, getSubIndex, h]
  · intro h
    constructor
    · simp [lookupMasterIndexName_006, getMasterIndexZone_006, getSubIndex, h]
    · simp [lookupMasterIndexName_006, getMasterIndexZone_006, getSubIndex, h,
            heldAfter]

/-- Witness for C5 at a non-sample and a sample name. -/
theorem lookupMasterIndexName_006_spec_witness :
    lookupMasterIndexName_006 env0 mi2 name1 triage0
      = (UDS_SUCCESS,
         { triage0 with isSample := false, inSampledChapter := false,
                        zone := env0.zoneOf SubId.nonHook name1 },
         [])
    ∧ lookupMasterIndexName_006 env0 mi2 name0 triage0
      = ((env0.lookupSampled name0
            { triage0 with isSample := true, inSampledChapter := false,
                           zone := env0.zoneOf SubId.hook name0 }).1,
         (env0.lookupSampled name0
            { triage0 with isSample := true, inSampledChapter := false,
                           zone := env0.zoneOf SubId.hook name0 }).2,
         [MIEvent.lock (env0.zoneOf SubId.hook name0),
          MIEvent.subLookupSampled SubId.hook,
          MIEvent.unlock (env0.zoneOf SubId.hook name0)]) :=
  ⟨(lookupMasterIndexName_006_spec env0 mi2 name1 triage0).1 rfl,
   ((lookupMasterIndexName_006_spec env0 mi2 name0 triage0).2 rfl).1⟩

/-- C6: on the success path the per-zone stream is the 8-byte magic, the
4-byte little-endian rate (a 12-byte header), the dense image and then the
sparse image; and the save-size computation propagates a split failure and
otherwise returns the header size plus both sub-index sizes. -/
theorem startSavingMasterIndex_006_layout (env : sub_index_pair)
    (mi6 : master_index6) (zoneNumber : Nat) (dense sparse : List Nat)
    (compute005 : configuration → Except Int Nat) (config : configuration)
    (hw : env.headerWrite = UDS_SUCCESS)
    (hd : env.saveImage SubId.nonHook zoneNumber = Except.ok dense)
    (hs : env.saveImage SubId.hook zoneNumber = Except.ok sparse) :
    startSavingMasterIndex_006 env mi6 zoneNumber
        = (UDS_SUCCESS,
           encodeMasterIndexHeader mi6.sparseSampleRate ++ dense ++ sparse)
    ∧ encodeMasterIndexHeader mi6.sparseSampleRate
        = MAGIC_MI_START ++ le32bytes mi6.sparseSampleRate
    ∧ MAGIC_MI_START.length = MAGIC_SIZE
    ∧ (encodeMasterIndexHeader mi6.sparseSampleRate).length = mi006_data_size
    ∧ (∀ e, splitConfiguration006 config = Except.error e →
        computeMasterIndexSaveBytes006 compute005 config = Except.error e)
    ∧ (∀ out s hb nb, splitConfiguration006 config = Except.ok (out, s) →
        compute005 s.hookConfig = Except.ok hb →
        compute005 s.nonHookConfig = Except.ok nb →
        computeMasterIndexSaveBytes006 compute005 config
          = Except.ok (mi006_data_size + hb + nb)) := by
  refine ⟨?_, rfl, by decide,
    by simp [encodeMasterIndexHeader, MAGIC_MI_START, le32bytes, mi006_data_size],
    ?_, ?_⟩
  · simp [startSavingMasterIndex_006, hw, hd, hs]
  · intro e he
    unfold computeMasterIndexSaveBytes006
    rw [he]
  · intro out s hb nb hsp hhb hnb
    unfold computeMasterIndexSaveBytes006
    rw [hsp]
    simp only
    rw [hhb, hnb]

/-- Witness for C6 at the concrete environment and configuration. -/
theorem startSavingMasterIndex_006_layout_witness :
    startSavingMasterIndex_006 env0 mi2 0
      = (UDS_SUCCESS,
         encodeMasterIndexHeader mi2.sparseSampleRate ++ [1, 2] ++ [3])
    ∧ computeMasterIndexSaveBytes006 compute005c cfgA
      = Except.ok (mi006_data_size + 20 + 20) := by
  obtain ⟨h1, -, -, -, -, h6⟩ :=
    startSavingMasterIndex_006_layout env0 mi2 0 [1, 2] [3] compute005c cfgA
      rfl rfl rfl
  obtain ⟨out, s, he, -⟩ := splitConfiguration006_spec cfgA (by decide) (by decide)
  exact ⟨h1, h6 out s 20 20 he rfl rfl⟩

/-- C7: saving in a zone is done exactly when both sub-indices report done;
finishing finishes the dense sub-index and stops there on failure, otherwise
finishes the sparse one and returns its result; aborting always aborts both,
a dense failure taking priority over the sparse result. -/
theorem savingLifecycle_006_spec (env : sub_index_pair) (zoneNumber : Nat) :
    (isSavingMasterIndexDone_006 env zoneNumber = true
      ↔ (env.savingDone SubId.nonHook zoneNumber = true
          ∧ env.savingDone SubId.hook zoneNumber = true))
    ∧ (env.finishSave SubId.nonHook zoneNumber ≠ UDS_SUCCESS →
        finishSavingMasterIndex_006 env zoneNumber
          = (env.finishSave SubId.nonHook zoneNumber,
             [MIEvent.subFinishSave SubId.nonHook]))
    ∧ (env.finishSave SubId.nonHook zoneNumber = UDS_SUCCESS →
        finishSavingMasterIndex_006 env zoneNumber
          = (env.finishSave SubId.hook zoneNumber,
             [MIEvent.subFinishSave SubId.nonHook,
              MIEvent.subFinishSave SubId.hook]))
    ∧ (abortSavingMasterIndex_006 env zoneNumber).2
        = [MIEvent.subAbortSave SubId.nonHook, MIEvent.subAbortSave SubId.hook]
    ∧ (env.abortSave SubId.nonHook zoneNumber ≠ UDS_SUCCESS →
        (abortSavingMasterIndex_006 env zoneNumber).1
          = env.abortSave SubId.nonHook zoneNumber)
    ∧ (env.abortSave SubId.nonHook zoneNumber = UDS_SUCCESS →
        (abortSavingMasterIndex_006 env zoneNumber).1
          = env.abortSave SubId.hook zoneNumber) := by
  refine ⟨?_, ?_, ?_, rfl, ?_, ?_⟩
  · simp [isSavingMasterIndexDone_006]
  · intro h
    simp [finishSavingMasterIndex_006, h]
  · intro h
    simp [finishSavingMasterIndex_006, h]
  · intro h
    simp [abortSavingMasterIndex_006, h]
  · intro h
    simp [abortSavingMasterIndex_006, h]

/-- Witness for C7 at the all-success environment. -/
theorem savingLifecycle_006_spec_witness :
    isSavingMasterIndexDone_006 env0 0 = true
    ∧ finishSavingMasterIndex_006 env0 0
        = (env0.finishSave SubId.hook 0,
           [MIEvent.subFinishSave SubId.nonHook,
            MIEvent.subFinishSave SubId.hook])
    ∧ (abortSavingMasterIndex_006 env0 0).1 = env0.abortSave SubId.hook 0 :=
  ⟨((savingLifecycle_006_spec env0 0).1).mpr ⟨rfl, rfl⟩,
   (savingLifecycle_006_spec env0 0).2.2.1 rfl,
   (savingLifecycle_006_spec env0 0).2.2.2.2.2 rfl⟩

/-- Decoding a well-formed encoded header recovers the magic and the rate
for any rate below 2^32. -/
theorem decode_encode_header (r : Nat) (h : r < 4294967296) :
    decodeMasterIndexHeader (encodeMasterIndexHeader r)
      = Except.ok { magic := MAGIC_MI_START, sparseSampleRate := r } := by
  simp only [decodeMasterIndexHeader, encodeMasterIndexHeader, MAGIC_MI_START,
    le32bytes, le32val, MAGIC_SIZE, mi006_data_size, List.length_append,
    List.length_cons, List.length_nil, List.cons_append, List.nil_append,
    List.take, List.drop]
  norm_num
  omega

/-- A well-formed non-first header whose rate matches the composite's leaves
the header loop running; with all rates matching, the loop succeeds and the
composite is unchanged. -/
theorem restoreHeaders_ok_of_eq (rates : List Nat) (mi6 : master_index6)
    (hall : ∀ r ∈ rates, r = mi6.sparseSampleRate)
    (hlt : ∀ r ∈ rates, r < 4294967296) :
    restoreHeaders mi6 false
        (rates.map fun r => Except.ok (encodeMasterIndexHeader r))
      = (UDS_SUCCESS, mi6) := by
  induction rates with
  | nil => rfl
  | cons r rest ih =>
    have hr : r = mi6.sparseSampleRate := hall r (by simp)
    have hl : r < 4294967296 := hlt r (by simp)
    simp only [List.map_cons, restoreHeaders, decode_encode_header r hl]
    rw [if_neg (by simp), if_neg (by simp), if_neg (by simp [hr])]
    exact ih (fun x hx => hall x (by simp [hx])) (fun x hx => hlt x (by simp [hx]))

/-- With some later rate differing from the composite's, the non-first
header loop ends in the corruption code. -/
theorem restoreHeaders_mismatch (rates : List Nat) (mi6 : master_index6)
    (hlt : ∀ r ∈ rates, r < 4294967296)
    (hmm : ∃ r ∈ rates, r ≠ mi6.sparseSampleRate) :
    (restoreHeaders mi6 false
        (rates.map fun r => Except.ok (encodeMasterIndexHeader r))).1
      = UDS_CORRUPT_COMPONENT := by
  induction rates with
  | nil => simp at hmm
  | cons r rest ih =>
    have hl : r < 4294967296 := hlt r (by simp)
    by_cases h : r = mi6.sparseSampleRate
    · simp only [List.map_cons, restoreHeaders, decode_encode_header r hl]
      rw [if_neg (by simp), if_neg (by simp), if_neg (by simp [h])]
      refine ih (fun x hx => hlt x (by simp [hx])) ?_
      obtain ⟨x, hx, hne⟩ := hmm
      rcases List.mem_cons.mp hx with hxr | hx2
      · exact absurd (hxr ▸ h) hne
      · exact ⟨x, hx2, hne⟩
    · simp only [List.map_cons, restoreHeaders, decode_encode_header r hl]
      rw [if_neg (by simp), if_neg (by simp),
          if_pos (by simp [Ne.symm h])]

/-- The first well-formed header is consumed by adopting its rate into the
composite and continuing with the remaining sources. -/
theorem restoreHeaders_first (mi6 : master_index6) (r0 : Nat)
    (h : r0 < 4294967296) (rest : List (Except Int (List Nat))) :
    restoreHeaders mi6 true (Except.ok (encodeMasterIndexHeader r0) :: rest)
      = restoreHeaders { mi6 with sparseSampleRate := r0 } false rest := by
  simp only [restoreHeaders, decode_encode_header r0 h]
  simp

/-- C2: restoring decodes each source's fixed header in order with an exact
magic comparison; a bad magic on the first source is a corruption error with
no sub-index restore; a later source whose rate differs from the first's is
a corruption error with no sub-index restore; and when every header carries
the first source's rate, that rate is adopted and the dense sub-index's
multi-reader restore runs first, followed by the sparse one's. -/
theorem startRestoringMasterIndex_006_spec :
    (∀ (env : sub_index_pair) (mi6 : master_index6) (bad : List Nat) (r : Nat)
        (rest : List (Except Int (List Nat))),
      bad.length = MAGIC_SIZE → bad ≠ MAGIC_MI_START →
      startRestoringMasterIndex_006 env mi6
          (Except.ok (bad ++ le32bytes r) :: rest)
        = (UDS_CORRUPT_COMPONENT, mi6, []))
    ∧ (∀ (env : sub_index_pair) (mi6 : master_index6) (r0 : Nat)
        (rest : List Nat),
      r0 < 4294967296 → (∀ r ∈ rest, r < 4294967296) →
      (∃ r ∈ rest, r ≠ r0) →
      (startRestoringMasterIndex_006 env mi6
          ((r0 :: rest).map fun r => Except.ok (encodeMasterIndexHeader r))).1
        = UDS_CORRUPT_COMPONENT
      ∧ (startRestoringMasterIndex_006 env mi6
          ((r0 :: rest).map fun r => Except.ok (encodeMasterIndexHeader r))).2.2
        = [])
    ∧ (∀ (env : sub_index_pair) (mi6 : master_index6) (r0 : Nat)
        (rest : List Nat),
      r0 < 4294967296 → (∀ r ∈ rest, r < 4294967296) →
      (∀ r ∈ rest, r = r0) →
      (startRestoringMasterIndex_006 env mi6
          ((r0 :: rest).map fun r => Except.ok (encodeMasterIndexHeader r))).2.1.sparseSampleRate
        = r0
      ∧ (env.restore SubId.nonHook = UDS_SUCCESS →
          startRestoringMasterIndex_006 env mi6
              ((r0 :: rest).map fun r => Except.ok (encodeMasterIndexHeader r))
            = (env.restore SubId.hook,
               { mi6 with sparseSampleRate := r0 },
               [MIEvent.subRestore SubId.nonHook, MIEvent.subRestore SubId.hook]))
      ∧ (env.restore SubId.nonHook ≠ UDS_SUCCESS →
          startRestoringMasterIndex_006 env mi6
              ((r0 :: rest).map fun r => Except.ok (encodeMasterIndexHeader r))
            = (env.restore SubId.nonHook,
               { mi6 with sparseSampleRate := r0 },
               [MIEvent.subRestore SubId.nonHook]))) := by
  refine ⟨?_, ?_, ?_⟩
  · intro env mi6 bad r rest hlen hbad
    have hlen8 : bad.length = 8 := by simpa [MAGIC_SIZE] using hlen
    have hdec : decodeMasterIndexHeader (bad ++ le32bytes r)
        = Except.ok { magic := bad, sparseSampleRate := le32val (le32bytes r) } := by
      simp only [decodeMasterIndexHeader, MAGIC_SIZE, mi006_data_size, le32bytes,
        List.length_append, List.length_cons, List.length_nil, hlen8]
      rw [if_neg (by omega), if_neg (by omega), if_neg (by omega)]
      rw [List.take_left' hlen8, List.drop_left' hlen8]
      simp [le32bytes]
    have hloop : restoreHeaders mi6 true
        (Except.ok (bad ++ le32bytes r) :: rest) = (UDS_CORRUPT_COMPONENT, mi6) := by
      simp only [restoreHeaders, hdec]
      rw [if_pos (by simpa using hbad)]
    simp only [startRestoringMasterIndex_006, hloop]
    rw [if_pos (by decide)]
  · intro env mi6 r0 rest h0 hlt hmm
    have hloop : (restoreHeaders mi6 true
        ((r0 :: rest).map fun r => Except.ok (encodeMasterIndexHeader r))).1
        = UDS_CORRUPT_COMPONENT := by
      rw [List.map_cons, restoreHeaders_first mi6 r0 h0]
      exact restoreHeaders_mismatch rest { mi6 with sparseSampleRate := r0 }
        hlt hmm
    constructor
    · simp only [startRestoringMasterIndex_006]
      rw [if_pos (by rw [hloop]; decide)]
      exact hloop
    · simp only [startRestoringMasterIndex_006]
      rw [if_pos (by rw [hloop]; decide)]
  · intro env mi6 r0 rest h0 hlt hall
    have hloop : restoreHeaders mi6 true
        (Except.ok (encodeMasterIndexHeader r0)
          :: rest.map fun r => Except.ok (encodeMasterIndexHeader r))
        = (UDS_SUCCESS, { mi6 with sparseSampleRate := r0 }) := by
      rw [restoreHeaders_first mi6 r0 h0]
      exact restoreHeaders_ok_of_eq rest _ (fun r hr => hall r hr) hlt
    refine ⟨?_, ?_, ?_⟩
    · simp only [List.map_cons]
      by_cases hd : env.restore SubId.nonHook = UDS_SUCCESS <;>
        simp [startRestoringMasterIndex_006, hloop, hd]
    · intro hd
      simp only [List.map_cons]
      simp [startRestoringMasterIndex_006, hloop, hd]
    · intro hd
      simp only [List.map_cons]
      simp [startRestoringMasterIndex_006, hloop, hd]

/-- Witness for C2: a zeroed first magic is rejected; rates 5 then 7 are
rejected with no sub-restore; rates 5 then 5 restore dense then sparse. -/
theorem startRestoringMasterIndex_006_spec_witness :
    startRestoringMasterIndex_006 env0 mi2
        [Except.ok ([0, 0, 0, 0, 0, 0, 0, 0] ++ le32bytes 5)]
      = (UDS_CORRUPT_COMPONENT, mi2, [])
    ∧ (startRestoringMasterIndex_006 env0 mi2
        ([5, 7].map fun r => Except.ok (encodeMasterIndexHeader r))).1
      = UDS_CORRUPT_COMPONENT
    ∧ (startRestoringMasterIndex_006 env0 mi2
        ([5, 7].map fun r => Except.ok (encodeMasterIndexHeader r))).2.2
      = []
    ∧ startRestoringMasterIndex_006 env0 mi2
        ([5, 5].map fun r => Except.ok (encodeMasterIndexHeader r))
      = (env0.restore SubId.hook, { mi2 with sparseSampleRate := 5 },
         [MIEvent.subRestore SubId.nonHook, MIEvent.subRestore SubId.hook]) :=
  ⟨startRestoringMasterIndex_006_spec.1 env0 mi2 [0, 0, 0, 0, 0, 0, 0, 0] 5 []
     (by decide) (by decide),
   (startRestoringMasterIndex_006_spec.2.1 env0 mi2 5 [7]
     (by decide) (by decide) ⟨7, by simp, by decide⟩).1,
   (startRestoringMasterIndex_006_spec.2.1 env0 mi2 5 [7]
     (by decide) (by decide) ⟨7, by simp, by decide⟩).2,
   (startRestoringMasterIndex_006_spec.2.2 env0 mi2 5 [5]
     (by decide) (by decide) (by simp)).2.1 rfl⟩

/-- C4: a restore stream whose first header carries the correct magic and
an encoded rate of 0 is accepted: the composite's rate becomes 0, both
sub-restores run and the restore succeeds, after which every sample
classification computes its projection modulo 0 — although the very same
zero rate is rejected with an invalid-argument error at split time. -/
theorem startRestoringMasterIndex_006_zero_rate (env : sub_index_pair)
    (mi6 : master_index6)
    (hd : env.restore SubId.nonHook = UDS_SUCCESS)
    (hh : env.restore SubId.hook = UDS_SUCCESS) :
    (startRestoringMasterIndex_006 env mi6
        [Except.ok (encodeMasterIndexHeader 0)]).1 = UDS_SUCCESS
    ∧ (startRestoringMasterIndex_006 env mi6
        [Except.ok (encodeMasterIndexHeader 0)]).2.2
      = [MIEvent.subRestore SubId.nonHook, MIEvent.subRestore SubId.hook]
    ∧ (startRestoringMasterIndex_006 env mi6
        [Except.ok (encodeMasterIndexHeader 0)]).2.1.sparseSampleRate = 0
    ∧ (∀ name, isMasterIndexSample_006
        (startRestoringMasterIndex_006 env mi6
          [Except.ok (encodeMasterIndexHeader 0)]).2.1 name
        = (extract_sampling_bytes name % 0 == 0))
    ∧ (∀ config : configuration, config.sparse_sample_rate = 0 →
        splitConfiguration006 config = Except.error UDS_INVALID_ARGUMENT) := by
  have hloop : restoreHeaders mi6 true [Except.ok (encodeMasterIndexHeader 0)]
      = (UDS_SUCCESS, { mi6 with sparseSampleRate := 0 }) := by
    rw [restoreHeaders_first mi6 0 (by decide)]
    rfl
  have hout : startRestoringMasterIndex_006 env mi6
      [Except.ok (encodeMasterIndexHeader 0)]
      = (env.restore SubId.hook, { mi6 with sparseSampleRate := 0 },
         [MIEvent.subRestore SubId.nonHook, MIEvent.subRestore SubId.hook]) := by
    simp [startRestoringMasterIndex_006, hloop, hd]
  refine ⟨by rw [hout]; simpa using hh, by rw [hout], by rw [hout],
    fun name => by rw [hout]; rfl, ?_⟩
  intro config hc
  unfold splitConfiguration006
  by_cases hs : config.geometry.sparse_chapters_per_volume = 0 <;>
    simp [hs, hc]

/-- Witness for C4 at the all-success environment. -/
theorem startRestoringMasterIndex_006_zero_rate_witness :
    (startRestoringMasterIndex_006 env0 mi2
        [Except.ok (encodeMasterIndexHeader 0)]).1 = UDS_SUCCESS
    ∧ (startRestoringMasterIndex_006 env0 mi2
        [Except.ok (encodeMasterIndexHeader 0)]).2.1.sparseSampleRate = 0 :=
  ⟨(startRestoringMasterIndex_006_zero_rate env0 mi2 rfl rfl).1,
   (startRestoringMasterIndex_006_zero_rate env0 mi2 rfl rfl).2.2.1⟩

